import Mathlib

/-!
Shallow embedding of `src/src/nodes/node.ts` from TD5_Decentralized_Technologies.

The file `node.ts` builds an express app with five routes — GET `/status`,
POST `/message`, GET `/start`, GET `/stop`, GET `/getState` — over a mutable
`state : NodeState` record and a mutable `consensusTimer` variable. `/start`
never broadcasts anything; for a healthy node with `F < 5` it schedules a
50 ms `setTimeout` whose callback writes `k := 2`, `decided := true`,
`x := 1` and clears the timer, and for `F >= 5` it writes `k := 0` and
schedules a `setInterval` whose ticks increment `k`. We embed each route
handler as a pure function `Node → Node × HttpResp` (or a read-only
function), embed the two timer callbacks as functions on `Node`, and model
a run of the node as the reflexive–transitive closure of a step relation
whose steps are exactly these handlers and callbacks.
-/

namespace TD5

/-- Modelled from the spec: the `Value` type imported by `node.ts` from
`../types` is not under `src/`. The spec describes binary consensus values
(`value: Value | null`, with a "random binary choice" tie-break); the code's
literal `1` is `Value.v1`. -/
inductive Value where
  | v0
  | v1
  deriving DecidableEq, Repr

/-- Modelled from the spec: the `NodeState` type imported by `node.ts` from
`../types` is not under `src/`. Its fields are fixed by the initializer at
`node.ts` lines 21–26 and by the spec's ConsensusState
`{killed, value, decided, round}`: `x : Value | null`,
`decided : boolean | null`, `k : integer | null`. -/
structure NodeState where
  killed : Bool
  x : Option Value
  decided : Option Bool
  k : Option Nat
  deriving DecidableEq, Repr

/-- Which kind of JavaScript timer the mutable `consensusTimer` variable
currently holds: the 50 ms `setTimeout` scheduled by the `F < 5` branch of
`/start`, or the `setInterval` scheduled by the `F >= 5` branch. -/
inductive TimerKind where
  | timeout
  | interval
  deriving DecidableEq, Repr

/-- The per-node mutable data of `node.ts`: the `state : NodeState` record
and the `consensusTimer` variable (`none` embeds JavaScript `null`). -/
structure Node where
  state : NodeState
  consensusTimer : Option TimerKind
  deriving DecidableEq, Repr

/-- An HTTP response as produced by the handlers (`res.status(...).send`,
`res.send` with default status 200, `res.sendStatus(200)`). -/
structure HttpResp where
  code : Nat
  body : String
  deriving DecidableEq, Repr

/-- The initial node data (`node.ts` lines 21–29): `killed = false`,
`x = isFaulty ? null : initialValue`, `decided = null`, `k = null`, and no
timer scheduled. -/
def initNode (isFaulty : Bool) (initialValue : Value) : Node :=
  { state :=
      { killed := false
        x := if isFaulty then none else some initialValue
        decided := none
        k := none }
    consensusTimer := none }

/-- GET `/status` (`node.ts` lines 32–38): faulty nodes get
`500 "faulty"`, all others `200 "live"`. The handler reads only the
`isFaulty` constructor argument and never looks at the node data. -/
def statusHandler (isFaulty : Bool) (_n : Node) : HttpResp :=
  if isFaulty then { code := 500, body := "faulty" }
  else { code := 200, body := "live" }

/-- POST `/message` (`node.ts` lines 41–46): logs the body and replies
`res.sendStatus(200)`; the node data is untouched, whatever the body is. -/
def messageHandler {Msg : Type} (n : Node) (_msg : Msg) : Node × HttpResp :=
  (n, { code := 200, body := "OK" })

/-- GET `/start` (`node.ts` lines 54–83). If `consensusTimer` is not null,
reply `400`. Else a faulty node does nothing; a healthy node with `F < 5`
schedules the consensus `setTimeout` (the state itself is written only when
the timer later fires, see `fireTimeout`); a healthy node with `F >= 5`
writes `k := 0` and schedules the incrementing `setInterval`. The `N`
argument of `node(...)` is never consulted by the handler. -/
def startHandler (_N F : Nat) (isFaulty : Bool) (n : Node) : Node × HttpResp :=
  if n.consensusTimer.isSome then
    (n, { code := 400, body := "Consensus algorithm already running." })
  else if isFaulty then
    (n, { code := 200, body := "Faulty node: consensus not started." })
  else if F < 5 then
    ({ n with consensusTimer := some TimerKind.timeout },
     { code := 200, body := "Consensus started" })
  else
    ({ state := { n.state with k := some 0 }
       consensusTimer := some TimerKind.interval },
     { code := 200, body := "Consensus started" })

/-- The `setTimeout` callback of the `F < 5` branch (`node.ts` lines
66–72): writes `k := 2`, `decided := true`, `x := 1` and resets
`consensusTimer` to null. It runs only while that timer is scheduled. -/
def fireTimeout (n : Node) : Node :=
  { state :=
      { n.state with
        k := some 2
        decided := some true
        x := some Value.v1 }
    consensusTimer := none }

/-- One tick of the `setInterval` callback of the `F >= 5` branch
(`node.ts` lines 78–81): `state.k!++`. The interval is only ever scheduled
right after `k := 0`, so `k` is non-null whenever a tick runs. -/
def intervalTick (n : Node) : Node :=
  { n with state := { n.state with k := n.state.k.map (· + 1) } }

/-- GET `/stop` (`node.ts` lines 86–96): if a timer is scheduled, clear it
and reply `200 "Consensus stopped"`; otherwise reply
`200 "Consensus algorithm not running."`. The `state` record is never
written. -/
def stopHandler (n : Node) : Node × HttpResp :=
  if n.consensusTimer.isSome then
    ({ n with consensusTimer := none },
     { code := 200, body := "Consensus stopped" })
  else
    (n, { code := 200, body := "Consensus algorithm not running." })

/-- GET `/getState` (`node.ts` lines 99–101): returns the `state` record. -/
def getState (n : Node) : NodeState :=
  n.state

/-- Modelled from the spec: `kill()` — "sets `killed = true` permanently;
all subsequent `start`/`onMessage` calls fail silently". No kill route or
any other write to `state.killed` exists in `src/src/nodes/node.ts`; this
definition models only the state flag the spec says `kill()` sets, so that
the behaviour of the actual handlers on a killed node can be examined. -/
def killHandler (n : Node) : Node :=
  { n with state := { n.state with killed := true } }

/-- One atomic event in the life of the node of `node.ts`, for fixed
constructor arguments `N`, `F`, `isFaulty`: an HTTP call to `/start`,
`/stop` or `/message` (whose state effect is the first component of the
handler), or one of the two timer callbacks, which can run only while the
corresponding timer is scheduled (`clearTimeout` / `clearInterval` in
`/stop`, and the timeout callback itself, cancel them). `/status` and
`/getState` are read-only and contribute no step. -/
inductive Step (N F : Nat) (b : Bool) : Node → Node → Prop where
  | start (n : Node) : Step N F b n (startHandler N F b n).1
  | stop (n : Node) : Step N F b n (stopHandler n).1
  | message (n : Node) (msg : String) : Step N F b n (messageHandler n msg).1
  | timeoutFires (n : Node) (h : n.consensusTimer = some TimerKind.timeout) :
      Step N F b n (fireTimeout n)
  | intervalTicks (n : Node) (h : n.consensusTimer = some TimerKind.interval) :
      Step N F b n (intervalTick n)

/-- The node data reachable from construction with arguments `N`, `F`,
`isFaulty = b`, `initialValue = v`, through any sequence of HTTP calls and
timer firings. -/
def Reachable (N F : Nat) (b : Bool) (v : Value) (n : Node) : Prop :=
  Relation.ReflTransGen (Step N F b) (initNode b v) n

/-- Case analysis on the state effect of a single step: it is the identity,
one of the two `/start` write branches, a timer callback, or the timer
clearing of `/stop`. -/
theorem step_cases {N F : Nat} {b : Bool} {n m : Node} (h : Step N F b n m) :
    m = n ∨
    m = { n with consensusTimer := some TimerKind.timeout } ∨
    m = { state := { n.state with k := some 0 }
          consensusTimer := some TimerKind.interval } ∨
    m = fireTimeout n ∨
    m = intervalTick n ∨
    m = { n with consensusTimer := none } := by
  cases h with
  | start =>
    cases hc : n.consensusTimer with
    | some t => exact Or.inl (by simp [startHandler, hc])
    | none =>
      cases b with
      | true => exact Or.inl (by simp [startHandler, hc])
      | false =>
        by_cases h5 : F < 5
        · exact Or.inr (Or.inl (by simp [startHandler, hc, h5]))
        · exact Or.inr (Or.inr (Or.inl (by simp [startHandler, hc, h5])))
  | stop =>
    cases hc : n.consensusTimer with
    | some t => exact Or.inr (Or.inr (Or.inr (Or.inr (Or.inr (by simp [stopHandler, hc])))))
    | none => exact Or.inl (by simp [stopHandler, hc])
  | message msg => exact Or.inl rfl
  | timeoutFires h => exact Or.inr (Or.inr (Or.inr (Or.inl rfl)))
  | intervalTicks h => exact Or.inr (Or.inr (Or.inr (Or.inr (Or.inl rfl))))

/-- No step writes the `killed` flag: `node.ts` contains no write to
`state.killed` after initialization. -/
theorem step_killed_eq {N F : Nat} {b : Bool} {n m : Node} (h : Step N F b n m) :
    m.state.killed = n.state.killed := by
  rcases step_cases h with rfl | rfl | rfl | rfl | rfl | rfl <;>
    simp [fireTimeout, intervalTick]

/-- Every reachable node datum has `killed = false`: `node.ts` exposes no
kill operation, so the flag set at line 22 is never changed. -/
theorem reachable_killed_false {N F : Nat} {b : Bool} {v : Value} {n : Node}
    (h : Reachable N F b v n) : n.state.killed = false := by
  induction h with
  | refl => rfl
  | tail _ hstep ih => rw [step_killed_eq hstep]; exact ih

/-- Once `decided = some true`, no step changes it back: the only write to
`state.decided` in `node.ts` is `decided := true` in the timeout callback. -/
theorem step_decided_mono {N F : Nat} {b : Bool} {n m : Node}
    (h : Step N F b n m) (hd : n.state.decided = some true) :
    m.state.decided = some true := by
  rcases step_cases h with rfl | rfl | rfl | rfl | rfl | rfl <;>
    simp [fireTimeout, intervalTick, hd]

/-- Each step preserves the conjunction "decided, with `x = 1` and a
non-null round counter": the timeout callback establishes exactly these
values, the `F >= 5` branch of `/start` writes `k := 0`, the interval tick
maps `k` through successor, and no other step writes `x`, `decided` or
`k`. -/
theorem step_decided_fixed {N F : Nat} {b : Bool} {n m : Node}
    (h : Step N F b n m)
    (hp : n.state.decided = some true ∧ n.state.x = some Value.v1 ∧
          n.state.k ≠ none) :
    m.state.decided = some true ∧ m.state.x = some Value.v1 ∧
      m.state.k ≠ none := by
  obtain ⟨hd, hx, hk⟩ := hp
  rcases step_cases h with rfl | rfl | rfl | rfl | rfl | rfl
  · exact ⟨hd, hx, hk⟩
  · exact ⟨hd, hx, hk⟩
  · exact ⟨hd, hx, by simp⟩
  · exact ⟨rfl, rfl, by simp [fireTimeout]⟩
  · refine ⟨hd, hx, ?_⟩
    cases hkk : n.state.k with
    | none => exact absurd hkk hk
    | some a => simp [intervalTick, hkk]
  · exact ⟨hd, hx, hk⟩

/-- Each step preserves the invariant "if decided then `x = 1` and the
round counter is non-null". -/
theorem step_decided_inv {N F : Nat} {b : Bool} {n m : Node}
    (h : Step N F b n m)
    (hinv : n.state.decided = some true →
      n.state.x = some Value.v1 ∧ n.state.k ≠ none) :
    m.state.decided = some true →
      m.state.x = some Value.v1 ∧ m.state.k ≠ none := by
  intro hd
  rcases step_cases h with rfl | rfl | rfl | rfl | rfl | rfl
  · exact hinv hd
  · exact hinv hd
  · exact ⟨(hinv hd).1, by simp⟩
  · exact ⟨rfl, by simp [fireTimeout]⟩
  · have hd' : n.state.decided = some true := hd
    obtain ⟨hx, hk⟩ := hinv hd'
    refine ⟨hx, ?_⟩
    cases hkk : n.state.k with
    | none => exact absurd hkk hk
    | some a => simp [intervalTick, hkk]
  · exact hinv hd

/-- On every reachable node datum, decidedness comes with `x = 1` and a
non-null round counter (the three fields are written together by the
timeout callback). -/
theorem reachable_decided_inv {N F : Nat} {b : Bool} {v : Value} {n : Node}
    (h : Reachable N F b v n) :
    n.state.decided = some true →
      n.state.x = some Value.v1 ∧ n.state.k ≠ none := by
  induction h with
  | refl => intro hd; simp [initNode] at hd
  | tail _ hstep ih => exact step_decided_inv hstep ih

/-- Claim C1: the claim says `start()` on a healthy, non-killed, idle node
sets `k = 0`, sets `decided = false` and broadcasts a round-0 Phase-1
proposal. The code does none of this on a fresh healthy node with `F = 0`:
the call is accepted (`200`) yet leaves `k = null` and `decided = null`
(it only schedules a timer), and the scheduled callback then jumps
straight to `k = 2`, `decided = true`, `x = 1`; no message is ever sent. -/
theorem start_does_not_initialize_round :
    (startHandler 4 0 false (initNode false Value.v0)).2.code = 200 ∧
    (startHandler 4 0 false (initNode false Value.v0)).1.state.k = none ∧
    (startHandler 4 0 false (initNode false Value.v0)).1.state.decided = none ∧
    (fireTimeout ((startHandler 4 0 false (initNode false Value.v0)).1)).state.decided
      = some true ∧
    (fireTimeout ((startHandler 4 0 false (initNode false Value.v0)).1)).state.k
      = some 2 ∧
    (fireTimeout ((startHandler 4 0 false (initNode false Value.v0)).1)).state.x
      = some Value.v1 := by
  refine ⟨rfl, rfl, rfl, rfl, rfl, rfl⟩

/-- Claim C2: validity fails on the code. A single healthy node
(`N = 1`, `F = 0`) constructed with initial value `v0` reaches, after
`/start` and the firing of the scheduled timeout, a state with
`decided = true` but `x = v1 ≠ v0`: the decided value is the hard-coded
`1`, not the common initial value. -/
theorem validity_violated :
    ∃ n : Node, Reachable 1 0 false Value.v0 n ∧
      n.state.decided = some true ∧
      n.state.x = some Value.v1 ∧
      n.state.x ≠ some Value.v0 := by
  refine ⟨fireTimeout (startHandler 1 0 false (initNode false Value.v0)).1,
    ?_, rfl, rfl, by decide⟩
  exact Relation.ReflTransGen.tail
    (Relation.ReflTransGen.single (Step.start (initNode false Value.v0)))
    (Step.timeoutFires (startHandler 1 0 false (initNode false Value.v0)).1 rfl)

/-- Claim C3: the claim says that with `N ≤ 2F` the round counter climbs
forever and `decided` never becomes true. The code never consults `N`: with
`N = 4`, `F = 2` (so `N ≤ 2F`) the healthy node reaches `decided = true`
(with `x = 1`, `k = 2`) after `/start` and one timer firing, because the
branch taken depends only on `F < 5`. -/
theorem insufficient_quorum_still_decides :
    ∃ n : Node, Reachable 4 2 false Value.v1 n ∧
      n.state.decided = some true ∧ n.state.k = some 2 := by
  refine ⟨fireTimeout (startHandler 4 2 false (initNode false Value.v1)).1,
    ?_, rfl, rfl⟩
  exact Relation.ReflTransGen.tail
    (Relation.ReflTransGen.single (Step.start (initNode false Value.v1)))
    (Step.timeoutFires (startHandler 4 2 false (initNode false Value.v1)).1 rfl)

/-- Claim C5: `/stop` is idempotent — two consecutive calls leave the node
(state record and timer) exactly as one call does — and when no timer is
scheduled the call changes nothing and still answers `200`. -/
theorem stop_idempotent (n : Node) :
    (stopHandler (stopHandler n).1).1 = (stopHandler n).1 ∧
    (n.consensusTimer = none →
      (stopHandler n).1 = n ∧ (stopHandler n).2.code = 200) := by
  constructor
  · cases hc : n.consensusTimer with
    | none => simp [stopHandler, hc]
    | some t => simp [stopHandler, hc]
  · intro hc
    constructor
    · simp [stopHandler, hc]
    · simp [stopHandler, hc]

/-- Claim C5 witness: both conjuncts evaluated on the freshly constructed
healthy node, whose timer is not scheduled. -/
theorem stop_idempotent_witness :
    ((stopHandler (stopHandler (initNode false Value.v0)).1).1
        = (stopHandler (initNode false Value.v0)).1) ∧
    ((stopHandler (initNode false Value.v0)).1 = initNode false Value.v0 ∧
      (stopHandler (initNode false Value.v0)).2.code = 200) := by
  have h := stop_idempotent (initNode false Value.v0)
  exact ⟨h.1, h.2 rfl⟩

/-- Claim C10: delivering any message body to POST `/message` leaves the
node — in particular its ConsensusState `{killed, x, decided, k}` —
unchanged, and the body is acknowledged with status 200. -/
theorem message_never_mutates {Msg : Type} (n : Node) (msg : Msg) :
    (messageHandler n msg).1 = n ∧
    getState (messageHandler n msg).1 = getState n ∧
    (messageHandler n msg).2.code = 200 :=
  ⟨rfl, rfl, rfl⟩

/-- Claim C10 witness: evaluated on a concrete node and message body. -/
theorem message_never_mutates_witness :
    (messageHandler (initNode false Value.v1) "hello").1 = initNode false Value.v1 ∧
    getState (messageHandler (initNode false Value.v1) "hello").1
      = getState (initNode false Value.v1) ∧
    (messageHandler (initNode false Value.v1) "hello").2.code = 200 :=
  message_never_mutates (initNode false Value.v1) "hello"

/-- Claim C4: the "or the node has been killed" branch of the claimed
rejection condition fails on the code. With kill modelled from the spec
(the code has no kill route), a killed, idle healthy node's `/start` is
accepted with `200` — never `400` — because the handler checks only
`consensusTimer` and never reads `state.killed`; with `F = 7` the accepted
call even writes `k := 0` on the killed node. The round-in-progress half
does behave as claimed: with a timer scheduled, `/start` answers `400` and
leaves the node unchanged. -/
theorem start_not_rejected_when_killed :
    (killHandler (initNode false Value.v0)).state.killed = true ∧
    (killHandler (initNode false Value.v0)).consensusTimer = none ∧
    (startHandler 10 7 false (killHandler (initNode false Value.v0))).2.code = 200 ∧
    ¬ (startHandler 10 7 false (killHandler (initNode false Value.v0))).2.code = 400 ∧
    (startHandler 10 7 false (killHandler (initNode false Value.v0))).1.state.k
      = some 0 ∧
    (startHandler 4 0 false (killHandler (initNode false Value.v0))).2.code = 200 ∧
    (startHandler 4 0 false
        ((startHandler 4 0 false (initNode false Value.v0)).1)).2.code = 400 ∧
    (startHandler 4 0 false
        ((startHandler 4 0 false (initNode false Value.v0)).1)).1
      = (startHandler 4 0 false (initNode false Value.v0)).1 := by
  refine ⟨rfl, rfl, rfl, by decide, rfl, rfl, rfl, rfl⟩

/-- Claim C6 counterexample: a reachable node datum with a round in
progress on which `/stop` does not leave the node "not decided". Run
`/start`, let the timeout fire (the node decides), then `/start` again —
accepted, since the callback reset the timer to null. Now a round is in
progress and `decided = true`; after `/stop`, `decided` is still `true`,
contradicting the claim that stop always leaves `decided` not true. -/
theorem stop_leaves_decided_cex :
    Reachable 4 0 false Value.v0
      (startHandler 4 0 false
        (fireTimeout (startHandler 4 0 false (initNode false Value.v0)).1)).1 ∧
    ((startHandler 4 0 false
        (fireTimeout (startHandler 4 0 false (initNode false Value.v0)).1)).1).consensusTimer
      ≠ none ∧
    (stopHandler ((startHandler 4 0 false
        (fireTimeout (startHandler 4 0 false (initNode false Value.v0)).1)).1)).1.state.decided
      = some true := by
  refine ⟨?_, by decide, rfl⟩
  exact Relation.ReflTransGen.tail
    (Relation.ReflTransGen.tail
      (Relation.ReflTransGen.single (Step.start (initNode false Value.v0)))
      (Step.timeoutFires (startHandler 4 0 false (initNode false Value.v0)).1 rfl))
    (Step.start (fireTimeout (startHandler 4 0 false (initNode false Value.v0)).1))

/-- Claim C6 amended: for every node datum with a round in progress,
`/stop` clears the timer — no round is active afterwards — and leaves the
ConsensusState untouched; in particular the node ends "not decided" when
and only when it was not already decided when stop was called. -/
theorem stop_halts_round (n : Node) (h : n.consensusTimer ≠ none) :
    (stopHandler n).1.consensusTimer = none ∧
    (stopHandler n).1.state = n.state := by
  cases hc : n.consensusTimer with
  | none => exact absurd hc h
  | some t =>
    constructor
    · simp [stopHandler, hc]
    · simp [stopHandler, hc]

/-- Claim C6 amended witness: evaluated on the node datum reached by one
accepted `/start` call, whose timer is scheduled. -/
theorem stop_halts_round_witness :
    (stopHandler ((startHandler 4 0 false (initNode false Value.v0)).1)).1.consensusTimer
      = none ∧
    (stopHandler ((startHandler 4 0 false (initNode false Value.v0)).1)).1.state
      = ((startHandler 4 0 false (initNode false Value.v0)).1).state :=
  stop_halts_round ((startHandler 4 0 false (initNode false Value.v0)).1) (by decide)

/-- Claim C7: the `/status` handler reads only the `isFaulty` constructor
argument, so a killed healthy node (kill modelled from the spec, since the
code has no kill route) gets the very same `200 "live"` response as a live
healthy node: killed nodes are not distinguishable in the status result,
against the claim's three-way distinction. -/
theorem status_does_not_distinguish_killed :
    statusHandler false (killHandler (initNode false Value.v1))
      = statusHandler false (initNode false Value.v1) ∧
    statusHandler false (killHandler (initNode false Value.v1))
      = { code := 200, body := "live" } ∧
    (killHandler (initNode false Value.v1)).state.killed = true ∧
    (initNode false Value.v1).state.killed = false :=
  ⟨rfl, rfl, rfl, rfl⟩

/-- Claim C8: kill finality fails on the code. With kill modelled from the
spec as setting `killed := true` (the code has no kill route), a
subsequent `/start` on a healthy killed node with `F = 7` is accepted and
mutates the ConsensusState — `k` goes from null to `0` — because the
`/start` handler never consults `state.killed`. (The `/message` half of
the claim does hold: message delivery changes nothing.) -/
theorem kill_not_final :
    (startHandler 10 7 false (killHandler (initNode false Value.v0))).1.state
      ≠ (killHandler (initNode false Value.v0)).state ∧
    (startHandler 10 7 false (killHandler (initNode false Value.v0))).1.state.k
      = some 0 ∧
    (killHandler (initNode false Value.v0)).state.k = none ∧
    (messageHandler (killHandler (initNode false Value.v0)) "m").1
      = killHandler (initNode false Value.v0) := by
  refine ⟨by decide, rfl, rfl, rfl⟩

/-- Claim C9: decision is terminal. On every reachable node datum with
`decided = true`, every further sequence of HTTP calls and timer firings
keeps `decided = true`, never changes `x`, and keeps the round counter
non-null (it is already non-null at the decision point). -/
theorem decision_terminal {N F : Nat} {b : Bool} {v : Value} {n m : Node}
    (hr : Reachable N F b v n) (hd : n.state.decided = some true)
    (hs : Relation.ReflTransGen (Step N F b) n m) :
    m.state.decided = some true ∧ m.state.x = n.state.x ∧
      m.state.k ≠ none ∧ n.state.k ≠ none := by
  obtain ⟨hx, hk⟩ := reachable_decided_inv hr hd
  have hP : m.state.decided = some true ∧ m.state.x = some Value.v1 ∧
      m.state.k ≠ none := by
    induction hs with
    | refl => exact ⟨hd, hx, hk⟩
    | tail _ hstep ih => exact step_decided_fixed hstep ih
  refine ⟨hP.1, ?_, hP.2.2, hk⟩
  rw [hP.2.1, hx]

/-- Claim C9 witness: the theorem applied to the decided node datum reached
by `/start` followed by the timeout firing, with the empty continuation. -/
theorem decision_terminal_witness :
    (fireTimeout (startHandler 1 0 false (initNode false Value.v0)).1).state.decided
      = some true ∧
    (fireTimeout (startHandler 1 0 false (initNode false Value.v0)).1).state.x
      = (fireTimeout (startHandler 1 0 false (initNode false Value.v0)).1).state.x ∧
    (fireTimeout (startHandler 1 0 false (initNode false Value.v0)).1).state.k
      ≠ none ∧
    (fireTimeout (startHandler 1 0 false (initNode false Value.v0)).1).state.k
      ≠ none :=
  decision_terminal
    (Relation.ReflTransGen.tail
      (Relation.ReflTransGen.single (Step.start (initNode false Value.v0)))
      (Step.timeoutFires (startHandler 1 0 false (initNode false Value.v0)).1 rfl))
    rfl
    Relation.ReflTransGen.refl

end TD5
